import Mathlib

/-!
Shallow embedding of the ClusterWrap repository (src/ClusterWrap/__init__.py
and src/ClusterWrap/clusters.py) and proofs about the frozen claims.

Python dictionaries (the dask configuration dictionary, the modelled
filesystem mapping paths to file contents, keyword-argument dictionaries)
are embedded as association lists over String keys, with an update
operation that replaces the first matching entry in place or appends a
fresh key at the end, matching insertion-order dictionary semantics.
-/

namespace ClusterWrap

/-- Update an association list at a key: replace the first entry whose key
matches, keeping its position, or append the binding at the end when the
key is absent. This is dictionary assignment `m[k] = v`. -/
def setKey {β : Type} : List (String × β) → String → β → List (String × β)
  | [], k, v => [(k, v)]
  | (k₁, v₁) :: t, k, v => if k₁ = k then (k, v) :: t else (k₁, v₁) :: setKey t k v

/-- Dictionary read `m.get(k)`: the value of the first entry for the key. -/
def lookupKey {β : Type} : List (String × β) → String → Option β
  | [], _ => none
  | (k₁, v₁) :: t, k => if k₁ = k then some v₁ else lookupKey t k

/-- Dictionary membership test `k in m`. -/
def containsKey {β : Type} : List (String × β) → String → Bool
  | [], _ => false
  | (k₁, _) :: t, k => if k₁ = k then true else containsKey t k

/-- Dictionary deletion: drop every entry with the given key. -/
def removeKey {β : Type} (m : List (String × β)) (k : String) : List (String × β) :=
  m.filter (fun kv => decide (kv.1 ≠ k))

/-- Apply a list of bindings left to right, each by `setKey`. This is the
shallow merge `d.update(opts)` / `dask.config.set(opts)` of the source:
later bindings overwrite earlier ones and untouched keys are retained. -/
def configSet {β : Type} (m : List (String × β)) (opts : List (String × β)) :
    List (String × β) :=
  opts.foldl (fun acc kv => setKey acc kv.1 kv.2) m

/-- The value a list of bindings finally assigns to a key: the value of the
last entry for the key, if any. For a Python dict literal (unique keys)
this is just the value at the key. -/
def lastValue {β : Type} : List (String × β) → String → Option β
  | [], _ => none
  | kv :: rest, k =>
    match lastValue rest k with
    | some v => some v
    | none => if kv.1 = k then some kv.2 else none

/-! ## Environment selection (src/ClusterWrap/__init__.py) -/

/-- The three cluster factories the module can bind to the module-level
name `cluster`. -/
inductive ClusterFactory
  | local_cluster
  | janelia_lsf_cluster
  | slurm_cluster
  deriving DecidableEq

/-- Observable facts about the host environment consumed by the selection
code at import time: whether `which` finds each submission executable, and
the raw status returned by `os.system` for each version-check command. -/
structure Env where
  bsubOnPath : Bool
  srunOnPath : Bool
  bsubVRawStatus : Nat
  srunVersionRawStatus : Nat
  deriving DecidableEq

/-- POSIX decoded exit status of a raw `os.system` status: bits 8..15. -/
def WEXITSTATUS (status : Nat) : Nat := (status / 256) % 256

/-- Value of the module-level `cluster` binding after the first `if`
statement (the bsub probe): when `bsub` is on the path and the raw status
of `os.system` on its version check differs from 32512, rebind to the
LSF factory; otherwise the initial `local_cluster` binding stands. -/
def clusterAfterBsubCheck (env : Env) : ClusterFactory :=
  if env.bsubOnPath then
    if env.bsubVRawStatus ≠ 32512 then ClusterFactory.janelia_lsf_cluster
    else ClusterFactory.local_cluster
  else ClusterFactory.local_cluster

/-- Final value of the module-level `cluster` binding: after the bsub
probe, a second independent `if` statement probes `srun`; when `srun` is
on the path and the decoded exit status of its version check is zero, the
binding becomes the SLURM factory, overwriting whatever the bsub probe
chose. -/
def selectCluster (env : Env) : ClusterFactory :=
  let c := clusterAfterBsubCheck env
  if env.srunOnPath then
    if WEXITSTATUS env.srunVersionRawStatus = 0 then ClusterFactory.slurm_cluster
    else c
  else c

/-! ## Wrapper state (src/ClusterWrap/clusters.py, class underscore-cluster) -/

/-- Process-wide state visible to a wrapper: the dask configuration
dictionary, the modelled filesystem (paths mapped to the dumped
configuration dictionaries written there), and the attributes set by
`modify_dask_config`: `yaml_path` and `persist_yaml`. -/
structure WrapperWorld where
  daskConfig : List (String × String)
  fs : List (String × List (String × String))
  yamlPath : String
  persistYaml : Bool
  deriving DecidableEq

/-- Existence test for a path in the modelled filesystem
(`os.path.exists`). -/
def fsExists (fs : List (String × List (String × String))) (p : String) : Bool :=
  containsKey fs p

/-- Method `modify_dask_config` of the base wrapper class: merge `options`
into the process-wide dask configuration via `dask.config.set` (modelled
as a shallow last-write-wins merge on dotted option names, per the
external library), dump the entire resulting configuration to the yaml
file under the per-user config directory, and record the path and the
persistence flag on the wrapper. -/
def modify_dask_config (home : String) (w : WrapperWorld)
    (options : List (String × String)) (yaml_name : String)
    (persist_yaml : Bool) : WrapperWorld :=
  let config := configSet w.daskConfig options
  let yamlPath := home ++ "/.config/dask/" ++ yaml_name
  { daskConfig := config
    fs := setKey w.fs yamlPath config
    yamlPath := yamlPath
    persistYaml := persist_yaml }

/-- The call `self.modify_dask_config(options)` with the Python default
arguments `yaml_name='ClusterWrap.yaml'` and `persist_yaml=False`. -/
def modify_dask_config_default (home : String) (w : WrapperWorld)
    (options : List (String × String)) : WrapperWorld :=
  modify_dask_config home w options "ClusterWrap.yaml" false

/-! ## Scope exit (method __exit__ of the base wrapper class) -/

/-- The three teardown steps of the exit method, in source order. -/
inductive TeardownStep
  | fileCleanup
  | clientClose
  | clusterExit
  deriving DecidableEq

/-- Which of the external teardown calls raise an exception when invoked:
`os.remove`, `client.close`, and the exit method of the wrapped backend
cluster. -/
structure TeardownEnv where
  removeRaises : Bool
  closeRaises : Bool
  clusterExitRaises : Bool
  deriving DecidableEq

/-- The tail of the exit method after the file-cleanup block:
`self.client.close()` then the delegated backend exit. Python has no
try/finally here, so a raised exception stops execution; the returned
trace lists the steps that completed and the flag reports whether an
exception escaped. -/
def cluster_exit_rest (env : TeardownEnv) (w : WrapperWorld) :
    WrapperWorld × List TeardownStep × Bool :=
  if env.closeRaises then
    (w, ([TeardownStep.fileCleanup], true))
  else if env.clusterExitRaises then
    (w, ([TeardownStep.fileCleanup, TeardownStep.clientClose], true))
  else
    (w, ([TeardownStep.fileCleanup, TeardownStep.clientClose,
          TeardownStep.clusterExit], false))

/-- The exit method of the base wrapper: when `persist_yaml` is unset and
the yaml file exists, remove it (an exception from `os.remove` would
propagate and skip the remaining steps); then close the client; then
delegate to the backend cluster exit. Returns the final world, the list
of completed steps in order, and whether an exception escaped. -/
def cluster_exit (env : TeardownEnv) (w : WrapperWorld) :
    WrapperWorld × List TeardownStep × Bool :=
  if !w.persistYaml && fsExists w.fs w.yamlPath then
    if env.removeRaises then (w, ([], true))
    else cluster_exit_rest env { w with fs := removeKey w.fs w.yamlPath }
  else cluster_exit_rest env w

/-! ## SLURM cluster variant (class slurm_cluster) -/

/-- Arguments handed to the backend `custom_SLURMCluster` constructor. -/
structure SlurmBackendArgs where
  cores : Nat
  processes : Nat
  memory : String
  walltime : String
  job_script_prologue : List String
  kwargs : List (String × String)
  deriving DecidableEq

/-- Observable calls made on the backend cluster object after
construction: `scale(n)`, assignment into the stored per-worker option
template `new_spec` options, and `adapt(minimum_jobs, maximum_jobs,
interval, wait_count)`. -/
inductive BackendEvent
  | scaleTo : Nat → BackendEvent
  | setOption : String → String → BackendEvent
  | adaptCall : Nat → Nat → String → Nat → BackendEvent
  deriving DecidableEq

/-- The backend cluster object, modelled from the external dask-jobqueue
semantics: its constructor arguments, its stored per-worker option
template (`new_spec` options, initialised from the constructor keyword
options), and the trace of calls made on it. -/
structure SlurmBackend where
  args : SlurmBackendArgs
  newSpecOptions : List (String × String)
  events : List BackendEvent
  deriving DecidableEq

/-- State of a `slurm_cluster` wrapper: the shared wrapper world plus the
attributes the constructor stores (`ncpus`, `min_workers`, `max_workers`)
and the backend cluster object. -/
structure SlurmWrapper where
  world : WrapperWorld
  ncpus : Nat
  min_workers : Nat
  max_workers : Nat
  backend : SlurmBackend
  deriving DecidableEq

/-- Method `adapt_cluster(min_workers=None, max_workers=None)`: overwrite
whichever bounds are given, then install the adaptive policy on the
backend with the stored bounds, the fixed interval of 10 seconds and the
fixed wait count of 6. -/
def adapt_cluster (s : SlurmWrapper) (minw maxw : Option Nat) : SlurmWrapper :=
  let s1 := match minw with
    | some m => { s with min_workers := m }
    | none => s
  let s2 := match maxw with
    | some m => { s1 with max_workers := m }
    | none => s1
  { s2 with backend := { s2.backend with
      events := s2.backend.events ++
        [BackendEvent.adaptCall s2.min_workers s2.max_workers "10s" 6] } }

/-- Method `change_worker_attributes(min_workers, max_workers, **kwargs)`:
scale the backend pool to zero workers, write each keyword override into
the stored per-worker option template, then reapply the adaptive policy
with the given bounds. -/
def change_worker_attributes (s : SlurmWrapper) (minw maxw : Nat)
    (kwargs : List (String × String)) : SlurmWrapper :=
  let s1 := { s with backend := { s.backend with
      events := s.backend.events ++ [BackendEvent.scaleTo 0] } }
  let s2 := { s1 with backend := { s1.backend with
      newSpecOptions := configSet s1.backend.newSpecOptions kwargs
      events := s1.backend.events ++
        kwargs.map (fun kv => BackendEvent.setOption kv.1 kv.2) } }
  adapt_cluster s2 (some minw) (some maxw)

/-- Constructor of `slurm_cluster`: merge the user configuration over the
built-in defaults and apply `modify_dask_config` with its default
arguments; store `ncpus` and the worker bounds; build the five
thread-count export statements with value `2 * ncpus`; default the local
and log directories when absent from the keyword options; derive the
memory request `str(15 * ncpus) + 'GB'`; default `threads` to `ncpus`;
construct the backend with these arguments; finally apply `adapt_cluster`
with the given bounds. The parameters `home`, `user`, `cwd` and `pid`
stand for the ambient process environment the source reads. -/
def slurm_cluster_init (home user cwd : String) (pid : Nat)
    (w : WrapperWorld) (ncpus processes : Nat) (threads : Option Nat)
    (min_workers max_workers : Nat) (walltime : String)
    (config : List (String × String)) (kwargs : List (String × String)) :
    SlurmWrapper :=
  let config_defaults : List (String × String) :=
    [("temporary-directory", "/local/workdir/temp/" ++ user ++ "/"),
     ("distributed.comm.timeouts.connect", "180s"),
     ("distributed.comm.timeouts.tcp", "360s")]
  let config_defaults := configSet config_defaults config
  let world := modify_dask_config_default home w config_defaults
  let tpw := 2 * ncpus
  let job_script_prologue : List String :=
    ["export MKL_NUM_THREADS=" ++ toString tpw,
     "export NUM_MKL_THREADS=" ++ toString tpw,
     "export OPENBLAS_NUM_THREADS=" ++ toString tpw,
     "export OPENMP_NUM_THREADS=" ++ toString tpw,
     "export OMP_NUM_THREADS=" ++ toString tpw]
  let kwargs := if containsKey kwargs "local_directory" then kwargs
    else setKey kwargs "local_directory" (cwd ++ "/dask_workers/")
  let kwargs := if containsKey kwargs "log_directory" then kwargs
    else setKey kwargs "log_directory"
      (cwd ++ "/dask_worker_logs_" ++ toString pid ++ "/")
  let memory := toString (15 * ncpus) ++ "GB"
  let cores := match threads with
    | none => ncpus
    | some t => t
  let args : SlurmBackendArgs :=
    { cores := cores
      processes := processes
      memory := memory
      walltime := walltime
      job_script_prologue := job_script_prologue
      kwargs := kwargs }
  let backend : SlurmBackend :=
    { args := args
      newSpecOptions :=
        [("cores", toString cores), ("processes", toString processes),
         ("memory", memory), ("walltime", walltime)] ++ kwargs
      events := [] }
  let s : SlurmWrapper :=
    { world := world
      ncpus := ncpus
      min_workers := min_workers
      max_workers := max_workers
      backend := backend }
  adapt_cluster s (some min_workers) (some max_workers)

/-! ## Local and remote cluster variants -/

/-- State of a `local_cluster` wrapper: the shared wrapper world plus the
keyword options handed to the backend `LocalCluster` constructor. -/
structure LocalWrapper where
  world : WrapperWorld
  kwargs : List (String × String)
  deriving DecidableEq

/-- Constructor of `local_cluster`: merge the user configuration over an
empty default dictionary, apply `modify_dask_config` with its default
arguments, default the `host` option to the empty string when absent, and
pass `memory_limit` through when given. -/
def local_cluster_init (home : String) (w : WrapperWorld)
    (config : List (String × String)) (memory_limit : Option String)
    (kwargs : List (String × String)) : LocalWrapper :=
  let config := configSet ([] : List (String × String)) config
  let world := modify_dask_config_default home w config
  let kwargs := if containsKey kwargs "host" then kwargs
    else setKey kwargs "host" ""
  let kwargs := match memory_limit with
    | some m => setKey kwargs "memory_limit" m
    | none => kwargs
  { world := world, kwargs := kwargs }

/-- Constructor of `remote_cluster`: merge the user configuration over an
empty default dictionary and apply `modify_dask_config` with its default
arguments; the already-constructed external cluster handle is only stored,
so the resulting wrapper world is the whole observable state. -/
def remote_cluster_init (home : String) (w : WrapperWorld)
    (config : List (String × String)) : WrapperWorld :=
  modify_dask_config_default home w (configSet ([] : List (String × String)) config)

/-- A concrete empty wrapper world used for concrete instances. -/
def emptyWorld : WrapperWorld :=
  { daskConfig := [], fs := [], yamlPath := "", persistYaml := false }

/-- A concrete SLURM wrapper built by the constructor embedding with
`ncpus = 4` and otherwise default-like arguments. -/
def slurmExample : SlurmWrapper :=
  slurm_cluster_init "h" "u" "c" 1 emptyWorld 4 1 none 1 4 "3:59" [] []

/-! ## Association list lemmas -/

theorem lookupKey_setKey {β : Type} (m : List (String × β)) (k k' : String) (v : β) :
    lookupKey (setKey m k v) k' = if k = k' then some v else lookupKey m k' := by
  induction m with
  | nil => simp [setKey, lookupKey]
  | cons kv t ih =>
    obtain ⟨k₁, v₁⟩ := kv
    by_cases h : k₁ = k
    · subst h
      by_cases h2 : k₁ = k' <;> simp [setKey, lookupKey, h2]
    · by_cases h2 : k₁ = k'
      · subst h2
        simp [setKey, h, lookupKey, Ne.symm h]
      · simp [setKey, h, lookupKey, h2, ih]

theorem containsKey_setKey {β : Type} (m : List (String × β)) (k k' : String) (v : β) :
    containsKey (setKey m k v) k' = if k = k' then true else containsKey m k' := by
  induction m with
  | nil => simp [setKey, containsKey]
  | cons kv t ih =>
    obtain ⟨k₁, v₁⟩ := kv
    by_cases h : k₁ = k
    · subst h
      by_cases h2 : k₁ = k' <;> simp [setKey, containsKey, h2]
    · by_cases h2 : k₁ = k'
      · subst h2
        simp [setKey, h, containsKey, Ne.symm h]
      · simp [setKey, h, containsKey, h2, ih]

theorem setKey_setKey_same {β : Type} (m : List (String × β)) (k : String) (v v' : β) :
    setKey (setKey m k v) k v' = setKey m k v' := by
  induction m with
  | nil => simp [setKey]
  | cons kv t ih =>
    obtain ⟨k₁, v₁⟩ := kv
    by_cases h : k₁ = k
    · subst h
      simp [setKey]
    · simp [setKey, h, ih]

theorem setKey_comm {β : Type} (m : List (String × β)) (k₁ k₂ : String) (v₁ v₂ : β)
    (hne : k₁ ≠ k₂) (hmem : containsKey m k₁ = true) :
    setKey (setKey m k₁ v₁) k₂ v₂ = setKey (setKey m k₂ v₂) k₁ v₁ := by
  induction m with
  | nil => simp [containsKey] at hmem
  | cons kv t ih =>
    obtain ⟨ka, va⟩ := kv
    by_cases h1 : ka = k₁
    · subst h1
      simp [setKey, hne, Ne.symm hne]
    · by_cases h2 : ka = k₂
      · subst h2
        simp [containsKey, h1] at hmem
        simp [setKey, h1, Ne.symm h1, hmem]
      · simp [containsKey, h1] at hmem
        simp [setKey, h1, h2, ih hmem]

theorem setKey_append_of_not_contains {β : Type} (m : List (String × β)) (k : String)
    (v : β) (h : containsKey m k = false) : setKey m k v = m ++ [(k, v)] := by
  induction m with
  | nil => simp [setKey]
  | cons kv t ih =>
    obtain ⟨k₁, v₁⟩ := kv
    simp [containsKey] at h
    simp [setKey, h.1, ih h.2]

theorem setKey_append_left {β : Type} (m e : List (String × β)) (k : String) (v : β)
    (h : containsKey m k = true) : setKey (m ++ e) k v = setKey m k v ++ e := by
  induction m with
  | nil => simp [containsKey] at h
  | cons kv t ih =>
    obtain ⟨k₁, v₁⟩ := kv
    by_cases h1 : k₁ = k
    · subst h1
      simp [setKey]
    · simp [containsKey, h1] at h
      simp [setKey, h1, ih h]

theorem setKey_append_singleton {β : Type} (m : List (String × β)) (k : String)
    (v v' : β) (h : containsKey m k = false) :
    setKey (m ++ [(k, v')]) k v = m ++ [(k, v)] := by
  induction m with
  | nil => simp [setKey]
  | cons kv t ih =>
    obtain ⟨k₁, v₁⟩ := kv
    simp [containsKey] at h
    simp [setKey, h.1, ih h.2]

theorem containsKey_removeKey_self {β : Type} (m : List (String × β)) (k : String) :
    containsKey (removeKey m k) k = false := by
  induction m with
  | nil => simp [removeKey, containsKey]
  | cons kv t ih =>
    obtain ⟨k₁, v₁⟩ := kv
    by_cases h : k₁ = k
    · subst h
      simpa [removeKey, List.filter] using ih
    · simpa [removeKey, List.filter, h, containsKey] using ih

/-! ## configSet lemmas -/

theorem configSet_nil {β : Type} (m : List (String × β)) : configSet m [] = m := rfl

theorem configSet_cons {β : Type} (m : List (String × β)) (kv : String × β)
    (opts : List (String × β)) :
    configSet m (kv :: opts) = configSet (setKey m kv.1 kv.2) opts := rfl

theorem configSet_append {β : Type} (m o₁ o₂ : List (String × β)) :
    configSet m (o₁ ++ o₂) = configSet (configSet m o₁) o₂ :=
  List.foldl_append _ _ _ _

theorem lookupKey_configSet {β : Type} (opts m : List (String × β)) (k : String) :
    lookupKey (configSet m opts) k =
      match lastValue opts k with
      | some v => some v
      | none => lookupKey m k := by
  induction opts generalizing m with
  | nil => simp [configSet_nil, lastValue]
  | cons kv rest ih =>
    obtain ⟨k₀, v₀⟩ := kv
    rw [configSet_cons, ih]
    rcases h : lastValue rest k with _ | v
    · by_cases h0 : k₀ = k
      · subst h0
        simp [lastValue, h, lookupKey_setKey]
      · simp [lastValue, h, h0, lookupKey_setKey, Ne.symm h0]
    · simp [lastValue, h]

theorem containsKey_configSet {β : Type} (opts m : List (String × β)) (k : String) :
    containsKey (configSet m opts) k =
      ((lastValue opts k).isSome || containsKey m k) := by
  induction opts generalizing m with
  | nil => simp [configSet_nil, lastValue]
  | cons kv rest ih =>
    obtain ⟨k₀, v₀⟩ := kv
    rw [configSet_cons, ih]
    rcases h : lastValue rest k with _ | v
    · by_cases h0 : k₀ = k
      · subst h0
        simp [lastValue, h, containsKey_setKey]
      · simp [lastValue, h, h0, containsKey_setKey, Ne.symm h0]
    · simp [lastValue, h]

/-! ## Claims C1 and C2: environment selection -/

/-- C1 counterexample: with bsub and srun both on the path, the bsub probe
raw status 0 and the srun version check decoded status 0, the bsub check
selects the LSF factory, yet the final binding is the SLURM factory: the
second check is consulted and overrides, so the claimed else-if behaviour
is false. -/
theorem c1_else_if_counterexample :
    clusterAfterBsubCheck ⟨true, true, 0, 0⟩ = ClusterFactory.janelia_lsf_cluster ∧
    (⟨true, true, 0, 0⟩ : Env).srunOnPath = true ∧
    WEXITSTATUS (⟨true, true, 0, 0⟩ : Env).srunVersionRawStatus = 0 ∧
    selectCluster ⟨true, true, 0, 0⟩ ≠ ClusterFactory.janelia_lsf_cluster := by
  decide

/-- C1 amended: the two probes are independent if statements, not an
else-if chain; whenever srun is on the path and its version check decodes
to exit status 0, the final default factory is the SLURM variant, no
matter what the bsub check selected. -/
theorem c1_srun_check_overrides (env : Env) (h1 : env.srunOnPath = true)
    (h2 : WEXITSTATUS env.srunVersionRawStatus = 0) :
    selectCluster env = ClusterFactory.slurm_cluster := by
  simp [selectCluster, h1, h2]

/-- C1 witness: the amended theorem applied at a concrete environment. -/
theorem c1_srun_check_overrides_witness :
    (⟨true, true, 0, 0⟩ : Env).srunOnPath = true ∧
    WEXITSTATUS (⟨true, true, 0, 0⟩ : Env).srunVersionRawStatus = 0 ∧
    selectCluster ⟨true, true, 0, 0⟩ = ClusterFactory.slurm_cluster :=
  ⟨rfl, rfl, c1_srun_check_overrides ⟨true, true, 0, 0⟩ rfl rfl⟩

/-- C2 counterexample: with bsub on the path and the raw status of its
version check equal to the sentinel 32512, the bsub check does not select
the LSF variant (the source tests for inequality with 32512, not
equality), so the claimed selection condition is false. -/
theorem c2_sentinel_counterexample :
    (⟨true, false, 32512, 0⟩ : Env).bsubOnPath = true ∧
    (⟨true, false, 32512, 0⟩ : Env).bsubVRawStatus = 32512 ∧
    clusterAfterBsubCheck ⟨true, false, 32512, 0⟩ ≠ ClusterFactory.janelia_lsf_cluster ∧
    selectCluster ⟨true, false, 32512, 0⟩ = ClusterFactory.local_cluster := by
  decide

/-- C2 amended: when bsub is on the path, the bsub check selects the LSF
variant exactly when the raw status of its version check is different
from the sentinel 32512. -/
theorem c2_bsub_selects_iff_raw_ne_sentinel (env : Env)
    (h : env.bsubOnPath = true) :
    clusterAfterBsubCheck env = ClusterFactory.janelia_lsf_cluster ↔
      env.bsubVRawStatus ≠ 32512 := by
  by_cases h2 : env.bsubVRawStatus = 32512 <;> simp [clusterAfterBsubCheck, h, h2]

/-- C2 witness: the amended theorem applied at a concrete environment. -/
theorem c2_bsub_selects_iff_raw_ne_sentinel_witness :
    (⟨true, false, 5, 0⟩ : Env).bsubOnPath = true ∧
    (clusterAfterBsubCheck ⟨true, false, 5, 0⟩ = ClusterFactory.janelia_lsf_cluster ↔
      (⟨true, false, 5, 0⟩ : Env).bsubVRawStatus ≠ 32512) :=
  ⟨rfl, c2_bsub_selects_iff_raw_ne_sentinel ⟨true, false, 5, 0⟩ rfl⟩

/-! ## Claims C3, C4, C10: scope exit -/

theorem cluster_exit_rest_world (env : TeardownEnv) (w : WrapperWorld) :
    (cluster_exit_rest env w).1 = w := by
  rcases env with ⟨r, c, x⟩
  cases c <;> cases x <;> simp [cluster_exit_rest]

theorem cluster_exit_rest_trace_head (env : TeardownEnv) (w : WrapperWorld) :
    TeardownStep.fileCleanup ∈ (cluster_exit_rest env w).2.1 := by
  rcases env with ⟨r, c, x⟩
  cases c <;> cases x <;> simp [cluster_exit_rest]

/-- C3 counterexample: with the client close raising and the backend exit
healthy, the exit method completes only the file-cleanup step; the
cluster-teardown step never runs, so a failure in an earlier step does
prevent later steps from running. -/
theorem c3_no_suppression_counterexample :
    (cluster_exit ⟨false, true, false⟩ emptyWorld).2.1 = [TeardownStep.fileCleanup] ∧
    (cluster_exit ⟨false, true, false⟩ emptyWorld).2.2 = true ∧
    TeardownStep.clusterExit ∉ (cluster_exit ⟨false, true, false⟩ emptyWorld).2.1 := by
  decide

/-- C3 amended: the teardown steps always run in the fixed order file
cleanup, client close, cluster teardown — the completed-step trace is a
prefix of that sequence, and when no step raises all three run — but the
source has no exception suppression, so a raised exception in an earlier
step aborts the later steps. -/
theorem c3_teardown_order (env : TeardownEnv) (w : WrapperWorld) :
    ((cluster_exit env w).2.2 = false →
      (cluster_exit env w).2.1 =
        [TeardownStep.fileCleanup, TeardownStep.clientClose, TeardownStep.clusterExit]) ∧
    ((cluster_exit env w).2.1 = [] ∨
      (cluster_exit env w).2.1 = [TeardownStep.fileCleanup] ∨
      (cluster_exit env w).2.1 = [TeardownStep.fileCleanup, TeardownStep.clientClose] ∨
      (cluster_exit env w).2.1 =
        [TeardownStep.fileCleanup, TeardownStep.clientClose, TeardownStep.clusterExit]) := by
  rcases env with ⟨r, c, x⟩
  cases hg : (!w.persistYaml && fsExists w.fs w.yamlPath)
  · cases c <;> cases x <;> simp [cluster_exit, hg, cluster_exit_rest]
  · cases r <;> cases c <;> cases x <;> simp [cluster_exit, hg, cluster_exit_rest]

/-- C3 witness: with no step raising, all three steps complete in order. -/
theorem c3_teardown_order_witness :
    (cluster_exit ⟨false, false, false⟩ emptyWorld).2.2 = false ∧
    (cluster_exit ⟨false, false, false⟩ emptyWorld).2.1 =
      [TeardownStep.fileCleanup, TeardownStep.clientClose, TeardownStep.clusterExit] :=
  ⟨by decide, (c3_teardown_order ⟨false, false, false⟩ emptyWorld).1 (by decide)⟩

/-- C4: for every exit that completes without a raised exception, when
`persist_yaml` was unset the configuration file no longer exists at
`yaml_path` afterwards, and when it was set the removal step is skipped
and the filesystem is untouched (so a file present at `yaml_path` is
still present). -/
theorem c4_yaml_removed_iff_not_persist (env : TeardownEnv) (w : WrapperWorld)
    (hdone : (cluster_exit env w).2.2 = false) :
    (w.persistYaml = false → fsExists (cluster_exit env w).1.fs w.yamlPath = false) ∧
    (w.persistYaml = true → (cluster_exit env w).1.fs = w.fs) := by
  cases hpy : w.persistYaml
  · refine ⟨fun _ => ?_, fun hT => by simp at hT⟩
    cases hex : containsKey w.fs w.yamlPath
    · simp [cluster_exit, fsExists, hpy, hex, cluster_exit_rest_world]
    · cases hr : env.removeRaises
      · simp [cluster_exit, fsExists, hpy, hex, hr, cluster_exit_rest_world,
          containsKey_removeKey_self]
      · simp [cluster_exit, fsExists, hpy, hex, hr] at hdone
  · refine ⟨fun hF => by simp at hF, fun _ => ?_⟩
    simp [cluster_exit, fsExists, hpy, cluster_exit_rest_world]

/-- C4 witness: the theorem applied to a wrapper holding a file at its
yaml path with persistence unset, under a raise-free environment. -/
theorem c4_yaml_removed_iff_not_persist_witness :
    (cluster_exit ⟨false, false, false⟩
      { daskConfig := [], fs := [("p", [])], yamlPath := "p", persistYaml := false }).2.2
        = false ∧
    fsExists (cluster_exit ⟨false, false, false⟩
      { daskConfig := [], fs := [("p", [])], yamlPath := "p", persistYaml := false }).1.fs
      "p" = false :=
  ⟨by decide,
    (c4_yaml_removed_iff_not_persist ⟨false, false, false⟩
      { daskConfig := [], fs := [("p", [])], yamlPath := "p", persistYaml := false }
      (by decide)).1 (by decide)⟩

/-- C10: the removal step is guarded by an existence check, so when no
file exists at `yaml_path`, exiting the scope leaves the filesystem
untouched and the file-cleanup step completes without raising, even if a
call to the removal primitive would have raised. -/
theorem c10_exit_guarded_remove (env : TeardownEnv) (w : WrapperWorld)
    (h : fsExists w.fs w.yamlPath = false) :
    (cluster_exit env w).1.fs = w.fs ∧
    TeardownStep.fileCleanup ∈ (cluster_exit env w).2.1 := by
  have hex : containsKey w.fs w.yamlPath = false := h
  simp [cluster_exit, fsExists, hex, cluster_exit_rest_world,
    cluster_exit_rest_trace_head]

/-- C10 witness: the theorem applied to an empty filesystem under an
environment in which every raw teardown call would raise. -/
theorem c10_exit_guarded_remove_witness :
    fsExists emptyWorld.fs emptyWorld.yamlPath = false ∧
    ((cluster_exit ⟨true, true, true⟩ emptyWorld).1.fs = emptyWorld.fs ∧
      TeardownStep.fileCleanup ∈ (cluster_exit ⟨true, true, true⟩ emptyWorld).2.1) :=
  ⟨by decide, c10_exit_guarded_remove ⟨true, true, true⟩ emptyWorld (by decide)⟩

/-! ## Claims C5, C7, C8, C9 -/

/-- C5: two successive `modify_dask_config` calls merge shallowly with
last-write-wins semantics — after the second call the process-wide
configuration maps a key written by the second options dictionary to that
value, a key written only by the first to the first call value, and every
untouched key to its earlier value. -/
theorem c5_last_write_wins (home : String) (w : WrapperWorld)
    (opts1 opts2 : List (String × String)) (n1 n2 : String) (p1 p2 : Bool)
    (k : String) :
    lookupKey ((modify_dask_config home
        (modify_dask_config home w opts1 n1 p1) opts2 n2 p2).daskConfig) k =
      match lastValue opts2 k with
      | some v => some v
      | none =>
        match lastValue opts1 k with
        | some v => some v
        | none => lookupKey w.daskConfig k := by
  simp only [modify_dask_config, lookupKey_configSet]
  rcases h2 : lastValue opts2 k with _ | v2 <;>
    rcases h1 : lastValue opts1 k with _ | v1 <;> simp [h1, h2]

/-- C7: every SLURM wrapper construction derives the memory request
`str(15 * ncpus) + GB` and injects five export statements each setting a
thread-count variable to `2 * ncpus`; in particular `ncpus = 4` yields
`60GB` and `=8` in every statement. -/
theorem c7_memory_and_prologue (home user cwd : String) (pid : Nat)
    (w : WrapperWorld) (ncpus processes : Nat) (threads : Option Nat)
    (min_workers max_workers : Nat) (walltime : String)
    (config kwargs : List (String × String)) :
    (slurm_cluster_init home user cwd pid w ncpus processes threads
        min_workers max_workers walltime config kwargs).backend.args.memory =
      toString (15 * ncpus) ++ "GB" ∧
    (slurm_cluster_init home user cwd pid w ncpus processes threads
        min_workers max_workers walltime config kwargs).backend.args.job_script_prologue =
      ["export MKL_NUM_THREADS=" ++ toString (2 * ncpus),
       "export NUM_MKL_THREADS=" ++ toString (2 * ncpus),
       "export OPENBLAS_NUM_THREADS=" ++ toString (2 * ncpus),
       "export OPENMP_NUM_THREADS=" ++ toString (2 * ncpus),
       "export OMP_NUM_THREADS=" ++ toString (2 * ncpus)] ∧
    slurmExample.backend.args.memory = "60GB" ∧
    slurmExample.backend.args.job_script_prologue =
      ["export MKL_NUM_THREADS=8", "export NUM_MKL_THREADS=8",
       "export OPENBLAS_NUM_THREADS=8", "export OPENMP_NUM_THREADS=8",
       "export OMP_NUM_THREADS=8"] := by
  refine ⟨?_, ?_, rfl, rfl⟩ <;> simp [slurm_cluster_init, adapt_cluster]

/-- C8: `change_worker_attributes` first scales the pool to zero, then
writes each keyword override into the stored per-worker option template,
then reapplies the adaptive policy with the given bounds; afterwards the
stored bounds equal the given values and the template maps every
overridden key to its override. -/
theorem c8_change_worker_attributes (s : SlurmWrapper) (minw maxw : Nat)
    (kwargs : List (String × String)) :
    (change_worker_attributes s minw maxw kwargs).min_workers = minw ∧
    (change_worker_attributes s minw maxw kwargs).max_workers = maxw ∧
    (change_worker_attributes s minw maxw kwargs).backend.events =
      s.backend.events ++ [BackendEvent.scaleTo 0] ++
        kwargs.map (fun kv => BackendEvent.setOption kv.1 kv.2) ++
        [BackendEvent.adaptCall minw maxw "10s" 6] ∧
    ∀ k v, lastValue kwargs k = some v →
      lookupKey (change_worker_attributes s minw maxw kwargs).backend.newSpecOptions
        k = some v := by
  refine ⟨by simp [change_worker_attributes, adapt_cluster],
    by simp [change_worker_attributes, adapt_cluster],
    by simp [change_worker_attributes, adapt_cluster],
    fun k v hkv => ?_⟩
  simp [change_worker_attributes, adapt_cluster, lookupKey_configSet, hkv]

/-- C8 witness: the theorem applied to the concrete wrapper with bounds
2 and 5 and a memory override of 30GB. -/
theorem c8_change_worker_attributes_witness :
    (change_worker_attributes slurmExample 2 5 [("memory", "30GB")]).min_workers = 2 ∧
    (change_worker_attributes slurmExample 2 5 [("memory", "30GB")]).max_workers = 5 ∧
    lastValue [("memory", "30GB")] "memory" = some "30GB" ∧
    lookupKey (change_worker_attributes slurmExample 2 5
        [("memory", "30GB")]).backend.newSpecOptions "memory" = some "30GB" :=
  ⟨(c8_change_worker_attributes slurmExample 2 5 [("memory", "30GB")]).1,
   (c8_change_worker_attributes slurmExample 2 5 [("memory", "30GB")]).2.1,
   rfl,
   (c8_change_worker_attributes slurmExample 2 5 [("memory", "30GB")]).2.2.2
     "memory" "30GB" rfl⟩

theorem yaml_path_default (home : String) :
    home ++ "/.config/dask/" ++ "ClusterWrap.yaml" =
      home ++ "/.config/dask/ClusterWrap.yaml" := by
  rw [String.append_assoc]
  exact congrArg (home ++ ·) rfl

theorem exit_removes_fresh (w' : WrapperWorld) (hpy : w'.persistYaml = false) :
    fsExists (cluster_exit ⟨false, false, false⟩ w').1.fs w'.yamlPath = false := by
  cases hex : containsKey w'.fs w'.yamlPath
  · simp [cluster_exit, fsExists, hpy, hex, cluster_exit_rest_world]
  · simp [cluster_exit, fsExists, hpy, hex, cluster_exit_rest_world,
      containsKey_removeKey_self]

/-- C9: every public constructor applies `modify_dask_config` with its
default persistence arguments, so straight after construction the
persistence flag is unset and the yaml path is the default per-user
ClusterWrap.yaml location; consequently a raise-free scope exit removes
the configuration file. -/
theorem c9_constructors_default_persist (home user cwd : String) (pid : Nat)
    (w : WrapperWorld) (ncpus processes : Nat) (threads : Option Nat)
    (min_workers max_workers : Nat) (walltime : String)
    (config kwargs : List (String × String)) (memory_limit : Option String)
    (config2 kwargs2 config3 : List (String × String)) :
    (slurm_cluster_init home user cwd pid w ncpus processes threads min_workers
        max_workers walltime config kwargs).world.persistYaml = false ∧
    (slurm_cluster_init home user cwd pid w ncpus processes threads min_workers
        max_workers walltime config kwargs).world.yamlPath =
      home ++ "/.config/dask/ClusterWrap.yaml" ∧
    (local_cluster_init home w config2 memory_limit kwargs2).world.persistYaml
      = false ∧
    (local_cluster_init home w config2 memory_limit kwargs2).world.yamlPath =
      home ++ "/.config/dask/ClusterWrap.yaml" ∧
    (remote_cluster_init home w config3).persistYaml = false ∧
    (remote_cluster_init home w config3).yamlPath =
      home ++ "/.config/dask/ClusterWrap.yaml" ∧
    fsExists (cluster_exit ⟨false, false, false⟩
        (slurm_cluster_init home user cwd pid w ncpus processes threads
          min_workers max_workers walltime config kwargs).world).1.fs
      (slurm_cluster_init home user cwd pid w ncpus processes threads
        min_workers max_workers walltime config kwargs).world.yamlPath = false ∧
    fsExists (cluster_exit ⟨false, false, false⟩
        (local_cluster_init home w config2 memory_limit kwargs2).world).1.fs
      (local_cluster_init home w config2 memory_limit kwargs2).world.yamlPath
        = false ∧
    fsExists (cluster_exit ⟨false, false, false⟩
        (remote_cluster_init home w config3)).1.fs
      (remote_cluster_init home w config3).yamlPath = false := by
  refine ⟨rfl, Eq.trans rfl (yaml_path_default home), rfl,
    Eq.trans rfl (yaml_path_default home), rfl,
    Eq.trans rfl (yaml_path_default home), ?_, ?_, ?_⟩ <;>
    exact exit_removes_fresh _ rfl

/-! ## Claim C6: idempotence of modify_dask_config -/

theorem lastValue_cons_isSome {β : Type} (k₁ : String) (v₁ : β)
    (rest : List (String × β)) (k : String)
    (h : (lastValue rest k).isSome = true) :
    (lastValue ((k₁, v₁) :: rest) k).isSome = true := by
  rcases hrv : lastValue rest k with _ | v
  · rw [hrv] at h
    simp at h
  · simp [lastValue, hrv]

theorem lastValue_cons_self_isSome {β : Type} (k₁ : String) (v₁ : β)
    (rest : List (String × β)) :
    (lastValue ((k₁, v₁) :: rest) k₁).isSome = true := by
  rcases hrv : lastValue rest k₁ with _ | v <;> simp [lastValue, hrv]

theorem configSet_setKey_of_mem {β : Type} (opts : List (String × β))
    (m : List (String × β)) (k : String) (v : β) :
    (lastValue opts k).isSome = true → containsKey m k = true →
    configSet (setKey m k v) opts = configSet m opts := by
  induction opts generalizing m with
  | nil =>
    intro hsome _
    simp [lastValue] at hsome
  | cons kv rest ih =>
    obtain ⟨k₁, v₁⟩ := kv
    intro hsome hmem
    by_cases hk1 : k₁ = k
    · subst hk1
      show configSet (setKey (setKey m k₁ v) k₁ v₁) rest
        = configSet (setKey m k₁ v₁) rest
      rw [setKey_setKey_same]
    · rcases hrv : lastValue rest k with _ | v'
      · exfalso
        simp [lastValue, hrv, hk1] at hsome
      · show configSet (setKey (setKey m k v) k₁ v₁) rest
          = configSet (setKey m k₁ v₁) rest
        rw [setKey_comm m k k₁ v v₁ (Ne.symm hk1) hmem]
        exact ih (setKey m k₁ v₁) (by simp [hrv])
          (by rw [containsKey_setKey]; simp [hk1, hmem])

theorem configSet_setKey_comm {β : Type} (opts : List (String × β))
    (m : List (String × β)) (k : String) (v : β) :
    lastValue opts k = none → containsKey m k = true →
    configSet (setKey m k v) opts = setKey (configSet m opts) k v := by
  induction opts generalizing m with
  | nil => intro _ _; rfl
  | cons kv rest ih =>
    obtain ⟨k₁, v₁⟩ := kv
    intro hnone hmem
    have hk1 : k₁ ≠ k := by
      intro h
      subst h
      rcases hrv : lastValue rest k₁ with _ | v' <;> simp [lastValue, hrv] at hnone
    have hrest : lastValue rest k = none := by
      rcases hrv : lastValue rest k with _ | v'
      · rfl
      · simp [lastValue, hrv] at hnone
    show configSet (setKey (setKey m k v) k₁ v₁) rest
      = setKey (configSet (setKey m k₁ v₁) rest) k v
    rw [setKey_comm m k k₁ v v₁ (Ne.symm hk1) hmem]
    exact ih (setKey m k₁ v₁) hrest
      (by rw [containsKey_setKey]; simp [hk1, hmem])

theorem configSet_append_extend {β : Type} (opts : List (String × β))
    (m e : List (String × β)) :
    (∀ k, (lastValue opts k).isSome = true → containsKey m k = true) →
    configSet (m ++ e) opts = configSet m opts ++ e := by
  induction opts generalizing m with
  | nil => intro _; rfl
  | cons kv rest ih =>
    obtain ⟨k₁, v₁⟩ := kv
    intro hall
    have hmem : containsKey m k₁ = true :=
      hall k₁ (lastValue_cons_self_isSome k₁ v₁ rest)
    show configSet (setKey (m ++ e) k₁ v₁) rest
      = configSet (setKey m k₁ v₁) rest ++ e
    rw [setKey_append_left m e k₁ v₁ hmem]
    refine ih (setKey m k₁ v₁) (fun k hk => ?_)
    rw [containsKey_setKey]
    by_cases hkk : k₁ = k
    · simp [hkk]
    · simp only [hkk, if_false]
      exact hall k (lastValue_cons_isSome k₁ v₁ rest k hk)

theorem configSet_idem {β : Type} (opts m : List (String × β)) :
    configSet (configSet m opts) opts = configSet m opts := by
  induction opts using List.reverseRecOn generalizing m with
  | nil => rfl
  | append_singleton q kv ih =>
    obtain ⟨k, v⟩ := kv
    have e1 : configSet m (q ++ [(k, v)]) = setKey (configSet m q) k v := by
      rw [configSet_append]
      rfl
    rw [e1, configSet_append]
    show setKey (configSet (setKey (configSet m q) k v) q) k v
      = setKey (configSet m q) k v
    rcases hk : lastValue q k with _ | v0
    · cases hc : containsKey (configSet m q) k
      · have hset : setKey (configSet m q) k v = configSet m q ++ [(k, v)] :=
          setKey_append_of_not_contains (configSet m q) k v hc
        rw [hset]
        have hext : configSet (configSet m q ++ [(k, v)]) q
            = configSet (configSet m q) q ++ [(k, v)] :=
          configSet_append_extend q (configSet m q) [(k, v)]
            (fun k' hk' => by rw [containsKey_configSet]; simp [hk'])
        rw [hext, ih m]
        exact setKey_append_singleton (configSet m q) k v v hc
      · rw [configSet_setKey_comm q (configSet m q) k v hk hc, ih m,
          setKey_setKey_same]
    · have hc : containsKey (configSet m q) k = true := by
        rw [containsKey_configSet]
        simp [hk]
      rw [configSet_setKey_of_mem q (configSet m q) k v (by simp [hk]) hc, ih m]

/-- C6: `modify_dask_config` is idempotent — calling it twice in
succession with the same options, filename and persistence flag leaves
exactly the same process-wide configuration, the same file content at the
same yaml path, and the same persistence flag as calling it once. -/
theorem c6_modify_dask_config_idem (home : String) (w : WrapperWorld)
    (options : List (String × String)) (yaml_name : String) (persist : Bool) :
    modify_dask_config home (modify_dask_config home w options yaml_name persist)
        options yaml_name persist =
      modify_dask_config home w options yaml_name persist := by
  have hC : configSet (configSet w.daskConfig options) options
      = configSet w.daskConfig options := configSet_idem options w.daskConfig
  simp [modify_dask_config, hC, setKey_setKey_same]

end ClusterWrap
